import Mathlib

/-!
Verification development for the `InfiniteScroll` component (src/index.tsx).

The component has three event-driven subsystems, each embedded below as a
pure function over an explicit model of the relevant DOM state:

* the pagination trigger (`observerCallback`, src/index.tsx lines 53-66),
* the reflow compensator (the anonymous `ResizeObserver` callback,
  src/index.tsx lines 98-123),
* the search highlighter (the effect at src/index.tsx lines 135-175).
-/

/-! ## Pagination trigger (src/index.tsx lines 53-66) -/

/-- One element of the `IntersectionObserverEntry[]` batch handed to
`observerCallback`: whether the entry is intersecting and the `id`
attribute of its target element. -/
structure IntersectionEntry where
  isIntersecting : Bool
  targetId : String
deriving DecidableEq

/-- The two load callbacks the component can invoke. -/
inductive LoadCall where
  | loadMoreTop
  | loadMoreBottom
deriving DecidableEq

/-- Embedding of `observerCallback` (src/index.tsx lines 53-66).  The DOM
callbacks `loadMoreTop` / `loadMoreBottom` are represented by the list of
invocations the batch produces, in order.  `mounted` stands for
`scrollRef.current` being non-null. -/
def observerCallback (isLoading mounted isTopFetchMore isBottomFetchMore : Bool)
    (entries : List IntersectionEntry) : List LoadCall :=
  entries.filterMap fun entry =>
    if entry.isIntersecting && !isLoading && mounted then
      if entry.targetId == "top-sentinel" && isTopFetchMore then
        some LoadCall.loadMoreTop
      else if entry.targetId == "bottom-sentinel" && isBottomFetchMore then
        some LoadCall.loadMoreBottom
      else
        none
    else
      none

/-! ## Reflow compensator (src/index.tsx lines 98-123) -/

/-- The `direction` prop: `"up" | "middle" | "down"`. -/
inductive Direction where
  | up
  | middle
  | down
deriving DecidableEq

/-- A recorded `scrollIntoView` invocation: the `data-message-id` of the
target element and the options object passed (src/index.tsx lines 112-115). -/
structure ScrollIntoViewCall where
  targetId : String
  behavior : String
  block : String
deriving DecidableEq

/-- Everything the resize callback changes or emits: the container's
`scrollTop`, the `prevScrollHeightRef` snapshot, the `scrollIntoView`
call (if any), and the scheduled `setIsLoading` timer (delay in ms and
the value passed), if any. -/
structure ResizeOutcome where
  scrollTop : Int
  prevScrollHeight : Int
  scrollIntoViewCall : Option ScrollIntoViewCall
  scheduledSetIsLoading : Option (Nat × Bool)
deriving DecidableEq

/-- The string interpolated into the CSS selector
`[data-message-id="${cursor}"]` (src/index.tsx line 108): a JavaScript
template literal renders `null` as the string `"null"`. -/
def cursorSelector : Option String → String
  | some c => c
  | none => "null"

/-- Embedding of the anonymous `ResizeObserver` callback
(src/index.tsx lines 98-123).  `mounted` is `scrollRef.current` being
non-null; `renderedIds` lists the `data-message-id` attribute values of the
elements inside the container in document order, so
`renderedIds.contains` models `querySelector` finding a match;
`scrollTop` and `prevScrollHeight` are the state read at entry and
`newScrollHeight` is the extent observed by the event. -/
def resizeObserverCallback (direction : Direction) (cursor : Option String)
    (mounted : Bool) (renderedIds : List String)
    (scrollTop prevScrollHeight newScrollHeight : Int) : ResizeOutcome :=
  if mounted then
    let scrollHeightDiff := newScrollHeight - prevScrollHeight
    match direction with
    | Direction.up =>
        { scrollTop := scrollTop + scrollHeightDiff
          prevScrollHeight := newScrollHeight
          scrollIntoViewCall := none
          scheduledSetIsLoading := none }
    | Direction.down =>
        { scrollTop := -scrollHeightDiff
          prevScrollHeight := newScrollHeight
          scrollIntoViewCall := none
          scheduledSetIsLoading := none }
    | Direction.middle =>
        if renderedIds.contains (cursorSelector cursor) then
          { scrollTop := scrollTop
            prevScrollHeight := newScrollHeight
            scrollIntoViewCall :=
              some { targetId := cursorSelector cursor
                     behavior := "auto", block := "center" }
            scheduledSetIsLoading := some (1000, false) }
        else
          { scrollTop := scrollTop
            prevScrollHeight := newScrollHeight
            scrollIntoViewCall := none
            scheduledSetIsLoading := none }
  else
    { scrollTop := scrollTop
      prevScrollHeight := prevScrollHeight
      scrollIntoViewCall := none
      scheduledSetIsLoading := none }

/-! ## Search highlighter (src/index.tsx lines 135-175)

The DOM inside the scroll container is modelled structurally: an element's
content is a list of nodes, each either a plain text node or the highlight
`<span class="...">` wrapper that line 156 produces.  `textContent` is the
concatenation of the node texts, exactly as in the DOM.  The source
treats the search query as a regular expression
(`new RegExp("(" + searchQuery + ")", "gi")`, lines 150-151); the pattern is
always a single capture group around the raw query, so `String.split` with
that regex alternates non-matching slices with the matched slices.  The
regex subset the component's pattern can fall into is embedded below:
literal characters and the `.` metacharacter, matched case-insensitively
(the `i` flag) and scanned globally (the `g` flag).  A query containing any
other metacharacter, a backslash escape, or a parenthesis falls outside the
embedded subset and compiles to `none`; `none` also stands for the
`SyntaxError` JavaScript raises on an invalid pattern. -/

/-- A rendered content node: plain text, or the inline highlight wrapper
`<span class="${searchedMessageColor} text-text-white">...</span>`
built at src/index.tsx line 156 (`cls` carries the class attribute value). -/
inductive DomNode where
  | text (s : String)
  | highlightSpan (cls : String) (s : String)
deriving DecidableEq

/-- An element carrying a `data-message-id` attribute, with its content. -/
structure DomElem where
  dataMessageId : String
  nodes : List DomNode
deriving DecidableEq

/-- The text carried by one node: for the highlight span this is its
wrapped text, as `Node.textContent` would report in the DOM. -/
def nodeText : DomNode → String
  | DomNode.text s => s
  | DomNode.highlightSpan _ s => s

/-- `element.textContent`: concatenation of all node texts. -/
def textContent (nodes : List DomNode) : String :=
  String.join (nodes.map nodeText)

/-- Case-insensitive string equality, as JavaScript's
`a.toLowerCase() === b.toLowerCase()` (src/index.tsx line 155). -/
def lowerEq (a b : String) : Bool :=
  a.data.map Char.toLower == b.data.map Char.toLower

/-- Whether `needle` occurs as a contiguous sublist of `hay`. -/
def subOccurs (needle : List Char) : List Char → Bool
  | [] => needle.isEmpty
  | c :: cs => needle.isPrefixOf (c :: cs) || subOccurs needle cs

/-- JavaScript's `a.toLowerCase().includes(b.toLowerCase())`
(src/index.tsx line 149). -/
def containsCI (hay needle : String) : Bool :=
  subOccurs (needle.data.map Char.toLower) (hay.data.map Char.toLower)

/-- One atom of the embedded regex subset: a literal character or the
`.` any-character metacharacter. -/
inductive RegexAtom where
  | lit (c : Char)
  | anyChar
deriving DecidableEq

/-- Characters that are regex metacharacters (beyond `.`): a query
containing one of these compiles to a pattern outside the embedded
subset. -/
def regexMetaChars : List Char :=
  ['*', '+', '?', '|', '[', ']', '\x7b', '\x7d', '^', '$', '\\', '(', ')']

/-- Compile the raw query into the atom sequence of the pattern
`"(" + query + ")"` (src/index.tsx lines 150-151).  `none` when the query
leaves the embedded subset (other metacharacters, escapes, nested groups,
or an invalid pattern such as an unbalanced parenthesis, which in
JavaScript raises `SyntaxError`). -/
def compileQueryAtoms : List Char → Option (List RegexAtom)
  | [] => some []
  | c :: cs =>
    if c = '.' then
      (compileQueryAtoms cs).map fun as => RegexAtom.anyChar :: as
    else if regexMetaChars.contains c then
      none
    else
      (compileQueryAtoms cs).map fun as => RegexAtom.lit c :: as

/-- Match the atom sequence at the start of the text, case-insensitively
(the regex `i` flag); on success return the matched slice (in its original
casing) and the remaining text.  `.` matches any character except the
JavaScript line terminators. -/
def matchAtomsCI : List RegexAtom → List Char → Option (List Char × List Char)
  | [], s => some ([], s)
  | _ :: _, [] => none
  | a :: as, c :: cs =>
    let ok : Bool :=
      match a with
      | RegexAtom.anyChar =>
          c != '\n' && c != '\r' && c != '\u2028' && c != '\u2029'
      | RegexAtom.lit l => l.toLower == c.toLower
    if ok then (matchAtomsCI as cs).map fun p => (c :: p.1, p.2) else none

/-- Global left-to-right scan of `String.split` with a regex whose single
capture group spans the whole pattern: the output alternates the slices
between matches with the matched slices themselves.  `fuel` only pads the
recursion (a successful non-empty match strictly shortens the text); it is
never exhausted when initialised above the text length. -/
def scanSplitAux (atoms : List RegexAtom) : Nat → List Char → List Char → List String
  | 0, s, acc => [String.mk (acc.reverse ++ s)]
  | _ + 1, [], acc => [String.mk acc.reverse]
  | fuel + 1, c :: rest, acc =>
    match matchAtomsCI atoms (c :: rest) with
    | some (m, r) =>
        if m.isEmpty then
          scanSplitAux atoms fuel rest (c :: acc)
        else
          String.mk acc.reverse :: String.mk m :: scanSplitAux atoms fuel r []
    | none => scanSplitAux atoms fuel rest (c :: acc)

/-- `originalText.split(new RegExp("(" + query + ")", "gi"))`
(src/index.tsx lines 150-152), for a compiled atom sequence. -/
def jsSplitKeepCapture (atoms : List RegexAtom) (s : String) : List String :=
  scanSplitAux atoms (s.data.length + 1) s.data []

/-- The per-element body of the highlighting pass
(src/index.tsx lines 146-162).  `none` models the `SyntaxError` thrown by
`new RegExp` on a query outside the embedded subset; otherwise the element
is returned with its content rewritten (or untouched when the guards at
lines 146 and 149 skip it). -/
def highlightElement (searchQuery cls : String) (e : DomElem) : Option DomElem :=
  let originalText := textContent e.nodes
  if originalText == "" then
    some e
  else if containsCI originalText searchQuery then
    match compileQueryAtoms searchQuery.data with
    | none => none
    | some atoms =>
        let parts := jsSplitKeepCapture atoms originalText
        let highlightedContent := parts.map fun part =>
          if lowerEq part searchQuery then
            DomNode.highlightSpan cls part
          else
            DomNode.text part
        some { e with nodes := highlightedContent }
  else
    some e

/-- `scrollElement.querySelector('[data-message-id="..."]')` followed by a
fallible mutation of the found element: the first element with the id is
replaced by `f`'s output; a missing element is skipped, as in the source's
`if (messageElement ...)` guard. -/
def queryUpdateFirst (id : String) (f : DomElem → Option DomElem) :
    List DomElem → Option (List DomElem)
  | [] => some []
  | e :: rest =>
    if e.dataMessageId == id then
      (f e).map fun e2 => e2 :: rest
    else
      (queryUpdateFirst id f rest).map fun r => e :: r

/-- The `searchedMessageIds.forEach` loop of the highlighting pass
(src/index.tsx lines 141-164); a thrown exception (`none`) aborts the
remaining iterations, as it does in JavaScript. -/
def highlightAll (searchQuery cls : String) :
    List String → List DomElem → Option (List DomElem)
  | [], dom => some dom
  | id :: ids, dom =>
    match queryUpdateFirst id (highlightElement searchQuery cls) dom with
    | none => none
    | some dom2 => highlightAll searchQuery cls ids dom2

/-- The highlighting effect body (src/index.tsx lines 135-164): the guard
at line 136 returns early when the query is empty, the container is not
mounted, or the matched-id set is empty; otherwise each matched id is
processed in order. -/
def applySearchHighlight (searchQuery : String) (mounted : Bool)
    (searchedMessageIds : List String) (cls : String)
    (dom : List DomElem) : Option (List DomElem) :=
  if searchQuery == "" || !mounted || searchedMessageIds.isEmpty then
    some dom
  else
    highlightAll searchQuery cls searchedMessageIds dom

/-- The cleanup's per-element body (src/index.tsx lines 171-173):
`messageElement.innerHTML = messageElement.textContent` collapses the
content to one plain text node; an element with empty text content is
skipped by the truthiness guard. -/
def restoreElement (e : DomElem) : DomElem :=
  let t := textContent e.nodes
  if t == "" then e else { e with nodes := [DomNode.text t] }

/-- Infallible first-match update, for the cleanup loop. -/
def updateFirstElem (id : String) (f : DomElem → DomElem) :
    List DomElem → List DomElem
  | [] => []
  | e :: rest =>
    if e.dataMessageId == id then f e :: rest
    else e :: updateFirstElem id f rest

/-- The effect's cleanup function (src/index.tsx lines 166-175): every
matched id's element has its content restored to its plain-text form. -/
def cleanupSearchHighlight (searchedMessageIds : List String)
    (dom : List DomElem) : List DomElem :=
  searchedMessageIds.foldl
    (fun d id => updateFirstElem id restoreElement d) dom

/-! ## Theorems: pagination trigger and reflow compensator -/

/-- C1: for every batch of visibility entries, if `isLoading` is true at
invocation time then `observerCallback` invokes neither `loadMoreTop` nor
`loadMoreBottom`, regardless of which sentinels are intersecting
(src/index.tsx line 55 guards every invocation with `!isLoading`). -/
theorem observerCallback_loading_blocks_all
    (mounted isTopFetchMore isBottomFetchMore : Bool)
    (entries : List IntersectionEntry) :
    observerCallback true mounted isTopFetchMore isBottomFetchMore entries = [] := by
  induction entries with
  | nil => rfl
  | cons e rest ih =>
      simp only [observerCallback, List.filterMap_cons] at ih ⊢
      simp [ih]

/-- C2: on a size-change event with `direction = "up"` and the container
mounted, the new scroll offset is the prior offset plus
`newExtent - previousExtent`; in particular pre-extent 1000 and
post-extent 1400 increase the offset by exactly 400
(src/index.tsx lines 100-103). -/
theorem resize_up_adds_delta (cursor : Option String) (renderedIds : List String)
    (scrollTop prevH newH : Int) :
    (resizeObserverCallback Direction.up cursor true renderedIds
        scrollTop prevH newH).scrollTop = scrollTop + (newH - prevH)
    ∧ (resizeObserverCallback Direction.up cursor true renderedIds
        scrollTop 1000 1400).scrollTop = scrollTop + 400 := by
  constructor <;> simp [resizeObserverCallback]

/-- C3: on a size-change event with `direction = "down"` and the container
mounted, the scroll offset is set to exactly `-(newExtent - previousExtent)`,
independently of its prior value; in particular pre-extent 1000 and
post-extent 1300 yield offset -300 (src/index.tsx lines 104-105). -/
theorem resize_down_sets_neg_delta (cursor : Option String) (renderedIds : List String)
    (scrollTop prevH newH : Int) :
    (resizeObserverCallback Direction.down cursor true renderedIds
        scrollTop prevH newH).scrollTop = -(newH - prevH)
    ∧ (resizeObserverCallback Direction.down cursor true renderedIds
        scrollTop 1000 1300).scrollTop = -300 := by
  constructor <;> simp [resizeObserverCallback]

/-- C4: on a size-change event with `direction = "middle"`, if an element
whose `data-message-id` equals the cursor is present, that element is
scrolled into view with `block: "center"` and a `setIsLoading(false)` call
is scheduled after a 1000 ms delay (src/index.tsx lines 106-119). -/
theorem resize_middle_found_scrolls_and_schedules (c : String)
    (renderedIds : List String) (scrollTop prevH newH : Int)
    (h : renderedIds.contains c = true) :
    (resizeObserverCallback Direction.middle (some c) true renderedIds
        scrollTop prevH newH).scrollIntoViewCall
      = some { targetId := c, behavior := "auto", block := "center" }
    ∧ (resizeObserverCallback Direction.middle (some c) true renderedIds
        scrollTop prevH newH).scheduledSetIsLoading = some (1000, false) := by
  have hm : c ∈ renderedIds := by simpa using h
  constructor <;> simp [resizeObserverCallback, cursorSelector, hm]

/-- Witness for C4 at cursor "m42" rendered among the items. -/
theorem resize_middle_found_scrolls_and_schedules_witness :
    (resizeObserverCallback Direction.middle (some "m42") true ["m41", "m42", "m43"]
        50 1000 1400).scrollIntoViewCall
      = some { targetId := "m42", behavior := "auto", block := "center" }
    ∧ (resizeObserverCallback Direction.middle (some "m42") true ["m41", "m42", "m43"]
        50 1000 1400).scheduledSetIsLoading = some (1000, false) :=
  resize_middle_found_scrolls_and_schedules "m42" ["m41", "m42", "m43"]
    50 1000 1400 (by decide)

/-- C5: on a size-change event with `direction = "middle"`, if no element
matches the cursor, no scroll adjustment happens (`scrollTop` is untouched),
no `scrollIntoView` is issued, and `setIsLoading` is not called; the
callback is a total function, so no error is raised
(src/index.tsx lines 106-120: the `targetMessage` guard). -/
theorem resize_middle_not_found_noop (cursor : Option String)
    (renderedIds : List String) (scrollTop prevH newH : Int)
    (h : renderedIds.contains (cursorSelector cursor) = false) :
    (resizeObserverCallback Direction.middle cursor true renderedIds
        scrollTop prevH newH).scrollTop = scrollTop
    ∧ (resizeObserverCallback Direction.middle cursor true renderedIds
        scrollTop prevH newH).scrollIntoViewCall = none
    ∧ (resizeObserverCallback Direction.middle cursor true renderedIds
        scrollTop prevH newH).scheduledSetIsLoading = none := by
  have hm : cursorSelector cursor ∉ renderedIds := by simpa using h
  refine ⟨?_, ?_, ?_⟩ <;> simp [resizeObserverCallback, hm]

/-- Witness for C5: cursor "m99" absent from the rendered items. -/
theorem resize_middle_not_found_noop_witness :
    (resizeObserverCallback Direction.middle (some "m99") true ["m41", "m42"]
        50 1000 1400).scrollTop = 50
    ∧ (resizeObserverCallback Direction.middle (some "m99") true ["m41", "m42"]
        50 1000 1400).scrollIntoViewCall = none
    ∧ (resizeObserverCallback Direction.middle (some "m99") true ["m41", "m42"]
        50 1000 1400).scheduledSetIsLoading = none :=
  resize_middle_not_found_noop (some "m99") ["m41", "m42"] 50 1000 1400 (by decide)

/-- C6: after every size-change event with the container mounted, the
previous-size snapshot equals the extent observed during that event, in
every direction branch, including the middle branch whether or not the
cursor element is found (src/index.tsx line 121 runs after all branches). -/
theorem resize_records_new_extent (direction : Direction) (cursor : Option String)
    (renderedIds : List String) (scrollTop prevH newH : Int) :
    (resizeObserverCallback direction cursor true renderedIds
        scrollTop prevH newH).prevScrollHeight = newH := by
  cases direction <;> simp [resizeObserverCallback]
  split <;> rfl

/-- C10: the component calls `setIsLoading` only on the anchor-jump settle
path: no size-change event with direction `"up"` or `"down"` schedules a
`setIsLoading` call, and no event with the container unmounted does either
(src/index.tsx lines 97-132: `setTimeout(() => setIsLoading(false), 1000)`
appears only inside the middle branch's `targetMessage` guard). -/
theorem resize_setIsLoading_only_on_middle (cursor : Option String)
    (renderedIds : List String) (scrollTop prevH newH : Int) :
    (resizeObserverCallback Direction.up cursor true renderedIds
        scrollTop prevH newH).scheduledSetIsLoading = none
    ∧ (resizeObserverCallback Direction.down cursor true renderedIds
        scrollTop prevH newH).scheduledSetIsLoading = none
    ∧ ∀ d : Direction,
        (resizeObserverCallback d cursor false renderedIds
            scrollTop prevH newH).scheduledSetIsLoading = none := by
  refine ⟨?_, ?_, fun d => ?_⟩ <;> simp [resizeObserverCallback]

/-! ## Theorems: search highlighter -/

/-- C7: applying the highlighter to element "m1" with text "hello world"
and query "World" wraps the case-insensitive occurrence in the highlight
span, preserving the text's original casing ("world"), with "hello "
left as plain text; running the cleanup on the highlighted content
restores the element's content exactly to the plain text "hello world"
(src/index.tsx lines 146-162 and 166-175). -/
theorem highlight_roundtrip_hello_world :
    applySearchHighlight "World" true ["m1"] "bg-border-surface-accent-red-orange"
        [{ dataMessageId := "m1", nodes := [DomNode.text "hello world"] }]
      = some [{ dataMessageId := "m1",
                nodes := [DomNode.text "hello ",
                          DomNode.highlightSpan
                            "bg-border-surface-accent-red-orange" "world",
                          DomNode.text ""] }]
    ∧ cleanupSearchHighlight ["m1"]
        [{ dataMessageId := "m1",
           nodes := [DomNode.text "hello ",
                     DomNode.highlightSpan
                       "bg-border-surface-accent-red-orange" "world",
                     DomNode.text ""] }]
      = [{ dataMessageId := "m1", nodes := [DomNode.text "hello world"] }] := by
  constructor <;> rfl

/-- C8: evaluation of the highlighter at the failing input.  The query
"a.." occurs literally in the text "aa.." (the `includes` guard at
src/index.tsx line 149 passes), yet the produced content holds no
highlight span at all: the unescaped query is compiled into the regex
`(a..)` (line 151) whose dots match any character, the regex claims the
slice "aa." starting at offset 0, the equality test at line 155 then
fails on every part, and the literal occurrence "a.." is left unwrapped,
split across two plain parts. -/
theorem highlight_regex_metachar_misses_occurrence :
    containsCI "aa.." "a.." = true
    ∧ applySearchHighlight "a.." true ["m1"] "bg-border-surface-accent-red-orange"
        [{ dataMessageId := "m1", nodes := [DomNode.text "aa.."] }]
      = some [{ dataMessageId := "m1",
                nodes := [DomNode.text "", DomNode.text "aa.",
                          DomNode.text "."] }] := by
  constructor <;> rfl

/-- C9: if the query string is empty, or the container is not mounted, or
the matched-id set is empty, the highlighting pass performs zero content
mutations: the DOM is returned unchanged (the guard at
src/index.tsx lines 136-137). -/
theorem highlight_noop_guard (searchQuery : String) (mounted : Bool)
    (searchedMessageIds : List String) (cls : String) (dom : List DomElem)
    (h : searchQuery = "" ∨ mounted = false ∨ searchedMessageIds = []) :
    applySearchHighlight searchQuery mounted searchedMessageIds cls dom
      = some dom := by
  rcases h with h | h | h <;> simp [applySearchHighlight, h]

/-- Witness for C9: empty query with a non-empty matched-id set mutates
nothing. -/
theorem highlight_noop_guard_witness :
    applySearchHighlight "" true ["m1"] "bg-border-surface-accent-red-orange"
        [{ dataMessageId := "m1", nodes := [DomNode.text "hello world"] }]
      = some [{ dataMessageId := "m1", nodes := [DomNode.text "hello world"] }] :=
  highlight_noop_guard "" true ["m1"] "bg-border-surface-accent-red-orange"
    [{ dataMessageId := "m1", nodes := [DomNode.text "hello world"] }]
    (Or.inl rfl)
